import Mathlib

/-!
Shallow embedding of the core pipeline of src/main.py (class VCDatabase):
context building from Airtable records, database sync, the web-search
provider fallback chain, and the model-call answer path.  Remote calls
(the Airtable fetch, the three search backends, the model HTTP call) are
modelled by explicit outcome values passed in as parameters; everything
the Python code computes from those outcomes is translated directly.
-/

/-- JSON-like field values stored in an Airtable record, as far as the
Python code observes them: strings, numbers and arrays. -/
inductive Value where
  | str : String → Value
  | num : Int → Value
  | list : List Value → Value

/-- Python truthiness of a field value: the empty string, zero and the
empty list are falsy, every other value is truthy. -/
def Value.truthy : Value → Bool
  | .str s => !(s == "")
  | .num n => !(n == 0)
  | .list l => !l.isEmpty

mutual
/-- Python repr of a value, as used when a list is interpolated into an
f-string.  Strings are wrapped in single quotes (escaping of quote
characters inside the string is not modelled). -/
def pyRepr : Value → String
  | .str s => "\x27" ++ s ++ "\x27"
  | .num n => toString n
  | .list l => "[" ++ pyReprJoin l ++ "]"
/-- Comma-separated reprs of the elements of a Python list. -/
def pyReprJoin : List Value → String
  | [] => ""
  | [v] => pyRepr v
  | v :: vs => pyRepr v ++ ", " ++ pyReprJoin vs
end

/-- Python str of a value, as used by f-string interpolation: strings
stay as they are, numbers print in decimal, lists print as bracketed
comma-separated reprs. -/
def pyStr : Value → String
  | .str s => s
  | .num n => toString n
  | .list l => "[" ++ pyReprJoin l ++ "]"

/-- Embedding of the Python expression sep.join(parts). -/
def pyJoin (sep : String) : List String → String
  | [] => ""
  | [s] => s
  | s :: ss => s ++ sep ++ pyJoin sep ss

/-- Python slice v[:n].  Strings keep their first n characters, lists
their first n elements; slicing a number raises TypeError, modelled as
none. -/
def pySlice : Value → Nat → Option Value
  | .str s, n => some (.str (String.mk (s.data.take n)))
  | .list l, n => some (.list (l.take n))
  | .num _, _ => none

/-- The field mapping of one Airtable record (the value of its fields
key), a string-keyed dictionary. -/
abbrev Fields := List (String × Value)

/-- One record returned by the Airtable fetch; the code only reads
record.get with the fields key, defaulting to an empty mapping. -/
structure Record where
  fields : Fields

/-- Resolution of one semantic slot by probing a prioritized alias list,
embedding the chained Python expression
fields.get(k1) or fields.get(k2) or ... : the first alias present with a
truthy value wins; absent keys and falsy values fall through. -/
def resolveSlot (fields : Fields) : List String → Option Value
  | [] => none
  | k :: ks =>
    match fields.lookup k with
    | some v => if v.truthy then some v else resolveSlot fields ks
    | none => resolveSlot fields ks

/-- Alias list for the company slot (src/main.py lines 78-82). -/
def companyAliases : List String :=
  ["company_name", "Company Name", "Company", "name"]

/-- Alias list for the status slot (src/main.py lines 84-87). -/
def statusAliases : List String :=
  ["status", "Status", "Current status", "Current Status"]

/-- Alias list for the notes slot (src/main.py lines 89-93). -/
def notesAliases : List String :=
  ["notes", "Notes", "call notes", "Call Notes", "Call notes"]

/-- Alias list for the date slot (src/main.py lines 95-98). -/
def dateAliases : List String :=
  ["date", "Date", "Last Contact", "last_contact"]

/-- Alias list for the deck-summary slot (src/main.py lines 100-105). -/
def summaryAliases : List String :=
  ["pitch_deck_summary", "Pitch Deck Summary", "summary", "Summary",
   "deck_summary", "Deck Summary"]

/-- Text emitted for a truncated free-text slot: the Python expression
str(v[:500]) as it appears inside the Notes and Deck Summary f-strings.
None models the TypeError raised when the value is a number. -/
def slotText (v : Value) : Option String :=
  (pySlice v 500).map pyStr

/-- Lines contributed by an untruncated optional slot: nothing when the
slot is unresolved, one labeled line otherwise (the if status: pattern
of src/main.py lines 108-111). -/
def optLine (lab : String) : Option Value → List String
  | none => []
  | some v => [lab ++ pyStr v]

/-- Lines contributed by a truncated optional slot (Notes and Deck
Summary, src/main.py lines 112-115); none propagates the TypeError of a
numeric slice. -/
def slotLines (lab : String) : Option Value → Option (List String)
  | none => some []
  | some v => (slotText v).map (fun t => [lab ++ t])

/-- Lines appended to the context for one record by the loop body of
create_context (src/main.py lines 74-115): the company line with its
Unknown fallback, then the conditional Status, Date, Notes and Deck
Summary lines. -/
def recordBlock (r : Record) : Option (List String) := do
  let fields := r.fields
  let company := (resolveSlot fields companyAliases).getD (Value.str "Unknown")
  let status := resolveSlot fields statusAliases
  let notes := resolveSlot fields notesAliases
  let date := resolveSlot fields dateAliases
  let summary := resolveSlot fields summaryAliases
  let notesPart ← slotLines "Notes: " notes
  let summaryPart ← slotLines "Deck Summary: " summary
  pure (("\nCompany: " ++ pyStr company)
    :: (optLine "Status: " status ++ optLine "Date: " date
        ++ notesPart ++ summaryPart))

/-- All lines appended by the record loop of create_context, in input
record order; none propagates an exception raised for any record. -/
def contextLines : List Record → Option (List String)
  | [] => some []
  | r :: rs => do
    let b ← recordBlock r
    let rest ← contextLines rs
    pure (b ++ rest)

/-- Embedding of create_context (src/main.py lines 62-117): the header
element followed by the per-record lines, joined with newlines.  The
debug print of the field-name set does not affect the result.  None
models an uncaught exception (a numeric Notes or Deck Summary value). -/
def create_context (records : List Record) : Option String :=
  (contextLines records).map
    (fun ls => pyJoin "\n" ("=== VC DATABASE ===\n" :: ls))

/-- The process-wide chat session state: the stored context string and
the last-sync timestamp (timestamps abstracted to numbers). -/
structure SessionState where
  database_context : String
  last_sync : Option Nat

/-- Embedding of sync_database (src/main.py lines 119-135), parameterized
by the records that find_table returned: an empty fetch reports failure
and changes nothing; an exception inside the try block (create_context
raising) is caught and also reports failure; otherwise the context is
replaced wholesale and the timestamp updated. -/
def sync_database (st : SessionState) (fetched : List Record) (now : Nat) :
    SessionState × Bool :=
  match fetched with
  | [] => (st, false)
  | _ :: _ =>
    match create_context fetched with
    | none => (st, false)
    | some ctx => ({ database_context := ctx, last_sync := some now }, true)

/-- One raw result object from a search backend, reduced to the three
fields the code reads.  The per-provider key names differ (title, body
and link for DuckDuckGo; title, description and url for Brave; title,
snippet and link for SerpAPI) but each maps onto this triple; a missing
key is none and makes the per-provider default apply. -/
structure Hit where
  title : Option String
  snippet : Option String
  url : Option String

/-- Entry formatting of web_search_duckduckgo (src/main.py lines
145-148). -/
def fmtDdg (r : Hit) : String :=
  "• " ++ r.title.getD "No title" ++ "\n  " ++ r.snippet.getD "No description"
    ++ "\n  Source: " ++ r.url.getD ""

/-- Entry formatting of web_search_brave (src/main.py lines 181-184). -/
def fmtBrave (r : Hit) : String :=
  "• " ++ r.title.getD "No title" ++ "\n  " ++ r.snippet.getD "No description"
    ++ "\n  Source: " ++ r.url.getD ""

/-- Entry formatting of web_search_serpapi (src/main.py lines
212-215). -/
def fmtSerp (r : Hit) : String :=
  "• " ++ r.title.getD "No title" ++ "\n  " ++ r.snippet.getD "No description"
    ++ "\n  Source: " ++ r.url.getD ""

/-- Embedding of the Python method strip with no arguments: leading and
trailing whitespace characters are removed (the basic whitespace set). -/
def pyStrip (s : String) : String :=
  String.mk
    (((s.data.dropWhile Char.isWhitespace).reverse.dropWhile
        Char.isWhitespace).reverse)

/-- Outcome of the DuckDuckGo library call: failure covers both the
ImportError of a missing library and any exception raised by the search
itself (both except branches return None); ok carries the result
objects the library yielded for max_results equal to 3. -/
inductive DdgOutcome where
  | failure
  | ok (hits : List Hit)

/-- Outcome of a keyed provider HTTP request: a raised exception, or a
response with its status code and parsed result objects. -/
inductive HttpOutcome where
  | exc
  | resp (status : Nat) (hits : List Hit)

/-- Names of the external search backends, used to record which backend
calls an execution performs. -/
inductive Provider where
  | ddg
  | brave
  | serpapi
deriving DecidableEq

/-- Embedding of web_search_duckduckgo (src/main.py lines 137-160).
The second component records that the backend was consulted.  A
successful call formats every yielded result (no slicing) and returns
the fixed message when the result list is empty; failure returns
None. -/
def web_search_duckduckgo (o : DdgOutcome) : Option String × List Provider :=
  match o with
  | .failure => (none, [.ddg])
  | .ok hits =>
    let results := hits.map fmtDdg
    (if results.isEmpty then some "No search results found."
     else some (pyJoin "\n\n" results), [.ddg])

/-- Embedding of web_search_brave (src/main.py lines 162-193): a blank
(stripped) BRAVE_API_KEY returns None without any HTTP call; an
exception or a non-200 status returns None; a 200 response formats the
first three results. -/
def web_search_brave (key : String) (o : HttpOutcome) :
    Option String × List Provider :=
  let api_key := pyStrip key
  if api_key == "" then (none, [])
  else
    match o with
    | .exc => (none, [.brave])
    | .resp status hits =>
      if status == 200 then
        let results := (hits.take 3).map fmtBrave
        (if results.isEmpty then some "No search results found."
         else some (pyJoin "\n\n" results), [.brave])
      else (none, [.brave])

/-- Embedding of web_search_serpapi (src/main.py lines 195-224), with
the same shape as the Brave provider but keyed on SERPAPI_KEY. -/
def web_search_serpapi (key : String) (o : HttpOutcome) :
    Option String × List Provider :=
  let api_key := pyStrip key
  if api_key == "" then (none, [])
  else
    match o with
    | .exc => (none, [.serpapi])
    | .resp status hits =>
      if status == 200 then
        let results := (hits.take 3).map fmtSerp
        (if results.isEmpty then some "No search results found."
         else some (pyJoin "\n\n" results), [.serpapi])
      else (none, [.serpapi])

/-- External state the aggregator runs against: the DuckDuckGo outcome,
and for each keyed provider its environment key and the outcome its
HTTP call would have. -/
structure SearchEnv where
  ddg : DdgOutcome
  braveKey : String
  brave : HttpOutcome
  serpKey : String
  serp : HttpOutcome

/-- Python truthiness of a provider return value, which is None or a
string: the if result: checks of web_search. -/
def pyTruthyOpt : Option String → Bool
  | none => false
  | some s => !(s == "")

/-- Embedding of web_search (src/main.py lines 226-251): DuckDuckGo,
then Brave, then SerpAPI; the first truthy return value is returned at
once, and None is returned when every provider fell through.  The
second component accumulates the backends consulted. -/
def web_search (env : SearchEnv) : Option String × List Provider :=
  let r1 := web_search_duckduckgo env.ddg
  if pyTruthyOpt r1.fst then r1
  else
    let r2 := web_search_brave env.braveKey env.brave
    if pyTruthyOpt r2.fst then (r2.fst, r1.snd ++ r2.snd)
    else
      let r3 := web_search_serpapi env.serpKey env.serp
      if pyTruthyOpt r3.fst then (r3.fst, r1.snd ++ r2.snd ++ r3.snd)
      else (none, r1.snd ++ r2.snd ++ r3.snd)

/-- Outcome of the model HTTP POST in ask_claude: a timeout, a
requests.RequestException, any other exception (also covering a body
whose parsed shape breaks the extraction), or a response carrying its
status code, its raw text, and the parsed content array (none when the
content key is absent, otherwise the list of text segments). -/
inductive ModelOutcome where
  | timeout
  | netError (e : String)
  | exc (e : String)
  | resp (status : Nat) (bodyText : String) (content : Option (List String))

/-- Embedding of the response handling and exception handlers of
ask_claude (src/main.py lines 294-313): a 200 response yields the first
text segment or the empty-response message; any other status yields the
API-error message with the body truncated to 200 characters (or a
placeholder when the body is empty); each exception class yields its
own message. -/
def handleModelResponse : ModelOutcome → String
  | .timeout => "Request timed out. Please try again."
  | .netError e => "Network error: " ++ e
  | .exc e => "Error: " ++ e
  | .resp status bodyText content =>
    if status == 200 then
      match content with
      | some (t :: _) => t
      | _ => "Claude returned empty response"
    else
      let error_msg :=
        if bodyText == "" then "Unknown error"
        else String.mk (bodyText.data.take 200)
      "Claude API error (" ++ toString status ++ "): " ++ error_msg

/-- Embedding of the Python substring test needle in hay over the
character lists of the two strings. -/
def containsSub (needle : List Char) : List Char → Bool
  | [] => needle.isPrefixOf []
  | c :: t => needle.isPrefixOf (c :: t) || containsSub needle t

/-- Embedding of the Python method lower, mapping the basic-latin
lowercasing over the characters of the string. -/
def pyLower (s : String) : String :=
  String.mk (s.data.map Char.toLower)

/-- The fixed trigger substrings of ask_claude (src/main.py line
262). -/
def searchTerms : List String :=
  ["news", "latest", "recent", "current", "market", "competitor", "research"]

/-- The search decision of ask_claude (src/main.py line 263): any
trigger term occurs in the lowercased message. -/
def shouldSearch (message : String) : Bool :=
  searchTerms.any (fun term => containsSub term.data (pyLower message).data)

/-- Observable result of one ask_claude call: the returned display
string, the session state after the optional context-ensuring sync, and
the search backends consulted. -/
structure AskResult where
  answer : String
  finalState : SessionState
  searched : List Provider

/-- Embedding of ask_claude (src/main.py lines 253-313), parameterized
by the external outcomes: an unset key returns the configuration
message; otherwise an empty stored context triggers a sync, the trigger
heuristic decides whether web_search runs, and the model outcome is
normalized to a display string.  The system prompt only feeds the
remote model, so it does not appear among the observables. -/
def ask_claude (claudeKey : String) (st : SessionState) (fetched : List Record)
    (now : Nat) (env : SearchEnv) (outcome : ModelOutcome) (message : String) :
    AskResult :=
  if claudeKey == "" then ⟨"Claude API not configured", st, []⟩
  else
    let st1 := if st.database_context == "" then (sync_database st fetched now).fst
               else st
    let searched := if shouldSearch message then (web_search env).snd else []
    ⟨handleModelResponse outcome, st1, searched⟩

/-- Two strings differing on an initial segment of their character data
are different. -/
theorem string_ne_of_take_ne (s t : String) (k : Nat)
    (h : s.data.take k ≠ t.data.take k) : s ≠ t :=
  fun he => h (by rw [he])

/-- A string whose first character is known is not empty. -/
theorem str_ne_empty_of_take (s : String) (c : Char)
    (h : s.data.take 1 = [c]) : s ≠ "" :=
  string_ne_of_take_ne s "" 1 (by rw [h]; simp)

/-- C3: a sync whose fetch produced zero records leaves the stored
context and the last-sync timestamp unchanged and reports failure,
while a fetch with at least one record (and no exception) replaces the
context wholesale and reports success. -/
theorem c3_sync_zero_records (st : SessionState) (fetched : List Record)
    (now : Nat) :
    (fetched = [] → sync_database st fetched now = (st, false)) ∧
    (∀ ctx, fetched ≠ [] → create_context fetched = some ctx →
      sync_database st fetched now
        = ({ database_context := ctx, last_sync := some now }, true)) := by
  constructor
  · intro h
    subst h
    rfl
  · intro ctx hne hcc
    match fetched, hne with
    | r :: rs, _ => simp [sync_database, hcc]

/-- Witness for C3 at concrete inputs: an empty fetch keeps the old
state and returns false; a one-record fetch stores the freshly built
context and returns true. -/
theorem c3_sync_zero_records_witness :
    sync_database ⟨"old", some 5⟩ [] 7 = (⟨"old", some 5⟩, false) ∧
    sync_database ⟨"old", some 5⟩ [⟨[("Company", Value.str "Acme")]⟩] 7
      = (⟨"=== VC DATABASE ===\n\n\nCompany: Acme", some 7⟩, true) :=
  ⟨(c3_sync_zero_records ⟨"old", some 5⟩ [] 7).1 rfl,
   (c3_sync_zero_records ⟨"old", some 5⟩ [⟨[("Company", Value.str "Acme")]⟩] 7).2
     "=== VC DATABASE ===\n\n\nCompany: Acme" (List.cons_ne_nil _ _) rfl⟩

/-- C8: the context builder is a pure function, so equal record
sequences give equal results, and running sync twice against an
unchanged fetched table leaves the same stored context string as
running it once. -/
theorem c8_sync_idempotent (st : SessionState) (fetched : List Record)
    (t1 t2 : Nat) :
    create_context fetched = create_context fetched ∧
    (sync_database (sync_database st fetched t1).fst fetched t2).fst.database_context
      = (sync_database st fetched t1).fst.database_context := by
  refine ⟨rfl, ?_⟩
  cases fetched with
  | nil => rfl
  | cons r rs =>
    cases h : create_context (r :: rs) with
    | none => simp [sync_database, h]
    | some ctx => simp [sync_database, h]

/-- C6: with a configured key the orchestrator returns exactly the
normalized model-call string, and the four failure categories (timeout,
network error, non-2xx status with truncated body, empty or missing
content array) each yield a fixed-category, non-empty, pairwise
distinct human-readable string; the generic exception handler likewise
returns a string rather than propagating. -/
theorem c6_failure_strings (k : String) (st : SessionState)
    (fetched : List Record) (now : Nat) (env : SearchEnv) (m e bodyText : String)
    (status : Nat) (content : Option (List String)) (o : ModelOutcome)
    (hk : k ≠ "") (hs : status ≠ 200) :
    (ask_claude k st fetched now env o m).answer = handleModelResponse o ∧
    handleModelResponse .timeout = "Request timed out. Please try again." ∧
    handleModelResponse (.netError e) = "Network error: " ++ e ∧
    handleModelResponse (.exc e) = "Error: " ++ e ∧
    handleModelResponse (.resp 200 bodyText none) = "Claude returned empty response" ∧
    handleModelResponse (.resp 200 bodyText (some [])) = "Claude returned empty response" ∧
    handleModelResponse (.resp status bodyText content)
      = "Claude API error (" ++ toString status ++ "): "
        ++ (if bodyText == "" then "Unknown error"
            else String.mk (bodyText.data.take 200)) ∧
    handleModelResponse .timeout ≠ handleModelResponse (.netError e) ∧
    handleModelResponse .timeout ≠ handleModelResponse (.resp 200 bodyText none) ∧
    handleModelResponse .timeout ≠ handleModelResponse (.resp status bodyText content) ∧
    handleModelResponse (.netError e) ≠ handleModelResponse (.resp 200 bodyText none) ∧
    handleModelResponse (.netError e) ≠ handleModelResponse (.resp status bodyText content) ∧
    handleModelResponse (.resp 200 bodyText none)
      ≠ handleModelResponse (.resp status bodyText content) ∧
    handleModelResponse .timeout ≠ "" ∧
    handleModelResponse (.netError e) ≠ "" ∧
    handleModelResponse (.resp 200 bodyText none) ≠ "" ∧
    handleModelResponse (.resp status bodyText content) ≠ "" := by
  have hD : handleModelResponse (.resp status bodyText content)
      = "Claude API error (" ++ toString status ++ "): "
        ++ (if bodyText == "" then "Unknown error"
            else String.mk (bodyText.data.take 200)) := by
    simp [handleModelResponse, hs]
  refine ⟨?_, rfl, rfl, rfl, rfl, rfl, hD, ?_, ?_, ?_, ?_, ?_, ?_, ?_, ?_, ?_, ?_⟩
  · simp [ask_claude, hk]
  · exact string_ne_of_take_ne _ _ 1 (by show (['R'] : List Char) ≠ ['N']; decide)
  · show "Request timed out. Please try again." ≠ "Claude returned empty response"
    decide
  · rw [hD]
    exact string_ne_of_take_ne _ _ 1 (by show (['R'] : List Char) ≠ ['C']; decide)
  · exact string_ne_of_take_ne _ _ 1 (by show (['N'] : List Char) ≠ ['C']; decide)
  · rw [hD]
    exact string_ne_of_take_ne _ _ 1 (by show (['N'] : List Char) ≠ ['C']; decide)
  · rw [hD]
    exact string_ne_of_take_ne _ _ 8
      (by show "Claude r".data ≠ "Claude A".data; decide)
  · decide
  · exact str_ne_empty_of_take _ 'N' rfl
  · show "Claude returned empty response" ≠ ""
    decide
  · rw [hD]
    exact str_ne_empty_of_take _ 'C' rfl

/-- Witness for C6 at concrete inputs: a 500 response with body oops
surfaces the status code and body, and the timeout string differs from
a network-error string. -/
theorem c6_failure_strings_witness :
    handleModelResponse (ModelOutcome.resp 500 "oops" none)
      = "Claude API error (500): oops" ∧
    handleModelResponse ModelOutcome.timeout
      ≠ handleModelResponse (ModelOutcome.netError "boom") := by
  have h := c6_failure_strings "key" ⟨"", none⟩ [] 0
    ⟨DdgOutcome.failure, "", HttpOutcome.exc, "", HttpOutcome.exc⟩
    "hi" "boom" "oops" 500 none ModelOutcome.timeout (by decide) (by decide)
  refine ⟨?_, h.2.2.2.2.2.2.2.1⟩
  rw [h.2.2.2.2.2.2.1]
  decide

/-- The first character of a list survives appending. -/
theorem take1_append (l m : List Char) (c : Char) (h : l.take 1 = [c]) :
    (l ++ m).take 1 = [c] := by
  cases l with
  | nil => simp at h
  | cons a t => simpa using h

/-- Every DuckDuckGo entry starts with a bullet character. -/
theorem fmtDdg_take1 (r : Hit) : (fmtDdg r).data.take 1 = ['•'] := rfl

/-- Every Brave entry starts with a bullet character. -/
theorem fmtBrave_take1 (r : Hit) : (fmtBrave r).data.take 1 = ['•'] := rfl

/-- Every SerpAPI entry starts with a bullet character. -/
theorem fmtSerp_take1 (r : Hit) : (fmtSerp r).data.take 1 = ['•'] := rfl

/-- A joined non-empty list of lines whose first line starts with a
known character is a non-empty string. -/
theorem pyJoin_head_ne (sep s : String) (ss : List String) (c : Char)
    (h : s.data.take 1 = [c]) : pyJoin sep (s :: ss) ≠ "" := by
  match ss with
  | [] => exact str_ne_empty_of_take _ c h
  | x :: xs =>
    show s ++ sep ++ pyJoin sep (x :: xs) ≠ ""
    refine str_ne_empty_of_take _ c ?_
    rw [String.data_append, String.data_append]
    exact take1_append _ _ _ (take1_append _ _ _ h)

/-- An unavailable Brave provider (blank key, raised exception, or
non-200 status) returns None. -/
theorem web_search_brave_fst_none (key : String) (o : HttpOutcome)
    (h : pyStrip key = "" ∨ o = .exc ∨ ∃ s hits, o = .resp s hits ∧ s ≠ 200) :
    (web_search_brave key o).fst = none := by
  rcases h with h | h | ⟨s, hits, rfl, hs⟩
  · simp [web_search_brave, h]
  · subst h
    cases hkey : pyStrip key == "" <;> simp [web_search_brave, hkey]
  · cases hkey : pyStrip key == "" <;> simp [web_search_brave, hkey, hs]

/-- An unavailable SerpAPI provider (blank key, raised exception, or
non-200 status) returns None. -/
theorem web_search_serpapi_fst_none (key : String) (o : HttpOutcome)
    (h : pyStrip key = "" ∨ o = .exc ∨ ∃ s hits, o = .resp s hits ∧ s ≠ 200) :
    (web_search_serpapi key o).fst = none := by
  rcases h with h | h | ⟨s, hits, rfl, hs⟩
  · simp [web_search_serpapi, h]
  · subst h
    cases hkey : pyStrip key == "" <;> simp [web_search_serpapi, hkey]
  · cases hkey : pyStrip key == "" <;> simp [web_search_serpapi, hkey, hs]

/-- C1: the aggregator consults DuckDuckGo first, and a non-empty
DuckDuckGo result set is returned immediately with no keyed backend
consulted; when DuckDuckGo fails the aggregator proceeds to Brave when
its key is present, and skips straight to SerpAPI when the Brave key is
blank, each winner being returned as soon as it yields a non-empty
result set. -/
theorem c1_provider_order (env : SearchEnv) (h1 : Hit) (rest : List Hit) :
    (env.ddg = .ok (h1 :: rest) →
      web_search env
        = (some (pyJoin "\n\n" ((h1 :: rest).map fmtDdg)), [Provider.ddg])) ∧
    (env.ddg = .failure → pyStrip env.braveKey ≠ "" →
      env.brave = .resp 200 (h1 :: rest) →
      web_search env
        = (some (pyJoin "\n\n" (((h1 :: rest).take 3).map fmtBrave)),
           [Provider.ddg, Provider.brave])) ∧
    (env.ddg = .failure → pyStrip env.braveKey = "" → pyStrip env.serpKey ≠ "" →
      env.serp = .resp 200 (h1 :: rest) →
      web_search env
        = (some (pyJoin "\n\n" (((h1 :: rest).take 3).map fmtSerp)),
           [Provider.ddg, Provider.serpapi])) := by
  refine ⟨?_, ?_, ?_⟩
  · intro hd
    have hne := pyJoin_head_ne "\n\n" (fmtDdg h1) (rest.map fmtDdg) '•' rfl
    simp [web_search, web_search_duckduckgo, hd, pyTruthyOpt, hne]
  · intro hd hkey hbr
    have hne := pyJoin_head_ne "\n\n" (fmtBrave h1) ((rest.map fmtBrave).take 2)
      '•' rfl
    simp [web_search, web_search_duckduckgo, web_search_brave, hd, hkey, hbr,
      pyTruthyOpt, hne]
  · intro hd hbk hsk hsr
    have hne := pyJoin_head_ne "\n\n" (fmtSerp h1) ((rest.map fmtSerp).take 2)
      '•' rfl
    simp [web_search, web_search_duckduckgo, web_search_brave,
      web_search_serpapi, hd, hbk, hsk, hsr, pyTruthyOpt, hne]

/-- Witness for C1 at concrete inputs: a one-hit DuckDuckGo success is
returned with only the DuckDuckGo backend consulted, and with
DuckDuckGo failing and a Brave key present the Brave result is
returned after consulting exactly DuckDuckGo and Brave. -/
theorem c1_provider_order_witness :
    web_search ⟨DdgOutcome.ok [⟨some "T", some "S", some "u"⟩], "",
        HttpOutcome.exc, "", HttpOutcome.exc⟩
      = (some "• T\n  S\n  Source: u", [Provider.ddg]) ∧
    web_search ⟨DdgOutcome.failure, "BK",
        HttpOutcome.resp 200 [⟨some "T", some "S", some "u"⟩], "",
        HttpOutcome.exc⟩
      = (some "• T\n  S\n  Source: u", [Provider.ddg, Provider.brave]) :=
  ⟨(c1_provider_order ⟨DdgOutcome.ok [⟨some "T", some "S", some "u"⟩], "",
      HttpOutcome.exc, "", HttpOutcome.exc⟩ ⟨some "T", some "S", some "u"⟩ []).1
      rfl,
   (c1_provider_order ⟨DdgOutcome.failure, "BK",
      HttpOutcome.resp 200 [⟨some "T", some "S", some "u"⟩], "",
      HttpOutcome.exc⟩ ⟨some "T", some "S", some "u"⟩ []).2.1
      rfl (by decide) rfl⟩

/-- C2: when DuckDuckGo fails and each keyed provider is skipped or
erroring, the aggregator returns the absence signal None, while a
provider that succeeded with zero results makes the aggregator return
the fixed non-empty message string; the two outcomes are
distinguishable to the caller. -/
theorem c2_absence_signal (env : SearchEnv) :
    (env.ddg = .failure →
      (pyStrip env.braveKey = "" ∨ env.brave = .exc ∨
        ∃ s hits, env.brave = .resp s hits ∧ s ≠ 200) →
      (pyStrip env.serpKey = "" ∨ env.serp = .exc ∨
        ∃ s hits, env.serp = .resp s hits ∧ s ≠ 200) →
      (web_search env).fst = none) ∧
    (env.ddg = .ok [] →
      (web_search env).fst = some "No search results found." ∧
      (web_search env).fst ≠ none) := by
  constructor
  · intro hd hb hs
    have h2 := web_search_brave_fst_none env.braveKey env.brave hb
    have h3 := web_search_serpapi_fst_none env.serpKey env.serp hs
    simp [web_search, web_search_duckduckgo, hd, pyTruthyOpt, h2, h3]
  · intro hd
    simp [web_search, web_search_duckduckgo, hd, pyTruthyOpt]

/-- Witness for C2 at concrete inputs: all providers unavailable gives
None, and DuckDuckGo succeeding with zero results gives the message
string, which is not None. -/
theorem c2_absence_signal_witness :
    (web_search ⟨DdgOutcome.failure, "", HttpOutcome.exc, " ",
        HttpOutcome.resp 404 []⟩).fst = none ∧
    (web_search ⟨DdgOutcome.ok [], "", HttpOutcome.exc, "",
        HttpOutcome.exc⟩).fst = some "No search results found." :=
  ⟨(c2_absence_signal ⟨DdgOutcome.failure, "", HttpOutcome.exc, " ",
      HttpOutcome.resp 404 []⟩).1 rfl (Or.inl rfl)
      (Or.inr (Or.inr ⟨404, [], rfl, by decide⟩)),
   ((c2_absence_signal ⟨DdgOutcome.ok [], "", HttpOutcome.exc, "",
      HttpOutcome.exc⟩).2 rfl).1⟩

/-- Correctness of the substring test: it holds exactly when the needle
is an infix of the haystack. -/
theorem containsSub_iff (needle hay : List Char) :
    containsSub needle hay = true ↔ needle <:+: hay := by
  induction hay with
  | nil => simp [containsSub]
  | cons c t ih => simp [containsSub, List.infix_cons_iff, ih]

/-- The aggregator always consults at least the keyless backend. -/
theorem web_search_snd_ne (env : SearchEnv) : (web_search env).snd ≠ [] := by
  have h1 : (web_search_duckduckgo env.ddg).snd = [Provider.ddg] := by
    cases env.ddg <;> rfl
  unfold web_search
  by_cases c1 : pyTruthyOpt (web_search_duckduckgo env.ddg).fst = true
  · simp [c1, h1]
  · by_cases c2 : pyTruthyOpt (web_search_brave env.braveKey env.brave).fst = true
    · simp [c1, c2, h1]
    · by_cases c3 : pyTruthyOpt (web_search_serpapi env.serpKey env.serp).fst = true
      · simp [c1, c2, c3, h1]
      · simp [c1, c2, c3, h1]

/-- C7: with a configured key, the orchestrator consults the search
aggregator exactly when the lowercased question contains one of the
seven trigger substrings. -/
theorem c7_search_trigger (k : String) (st : SessionState) (fetched : List Record)
    (now : Nat) (env : SearchEnv) (o : ModelOutcome) (m : String) (hk : k ≠ "") :
    (ask_claude k st fetched now env o m).searched ≠ [] ↔
      ∃ t ∈ searchTerms, t.data <:+: (pyLower m).data := by
  have hk2 : (k == "") = false := beq_eq_false_iff_ne.mpr hk
  simp only [ask_claude, hk2, Bool.false_eq_true, if_false]
  cases hss : shouldSearch m with
  | false =>
    simp only [hss, if_false, Bool.false_eq_true, ne_eq, not_true_eq_false,
      false_iff, not_exists]
    intro t ht
    have hc := (containsSub_iff t.data (pyLower m).data).mpr ht.2
    have hf := (List.any_eq_false.mp (by simpa [shouldSearch] using hss)) t ht.1
    rw [hc] at hf
    exact hf rfl
  | true =>
    simp only [hss, if_true]
    obtain ⟨t, ht, hc⟩ := List.any_eq_true.mp (by simpa [shouldSearch] using hss)
    exact ⟨fun _ => ⟨t, ht, (containsSub_iff _ _).mp hc⟩,
           fun _ => web_search_snd_ne env⟩

/-- Witness for C7 at the two questions named by the specification: the
latest question consults the aggregator, the status question does
not. -/
theorem c7_search_trigger_witness :
    (ask_claude "key" ⟨"ctx", none⟩ [] 0
        ⟨DdgOutcome.failure, "", HttpOutcome.exc, "", HttpOutcome.exc⟩
        ModelOutcome.timeout "What\x27s the latest on Acme?").searched ≠ [] ∧
    (ask_claude "key" ⟨"ctx", none⟩ [] 0
        ⟨DdgOutcome.failure, "", HttpOutcome.exc, "", HttpOutcome.exc⟩
        ModelOutcome.timeout "What\x27s Acme\x27s status?").searched = [] := by
  constructor
  · exact (c7_search_trigger "key" ⟨"ctx", none⟩ [] 0
      ⟨DdgOutcome.failure, "", HttpOutcome.exc, "", HttpOutcome.exc⟩
      ModelOutcome.timeout "What\x27s the latest on Acme?" (by decide)).mpr
      ⟨"latest", by decide, by decide⟩
  · by_contra hne
    have h := (c7_search_trigger "key" ⟨"ctx", none⟩ [] 0
      ⟨DdgOutcome.failure, "", HttpOutcome.exc, "", HttpOutcome.exc⟩
      ModelOutcome.timeout "What\x27s Acme\x27s status?" (by decide)).mp hne
    have hno : ¬ ∃ t ∈ searchTerms,
        t.data <:+: (pyLower "What\x27s Acme\x27s status?").data := by decide
    exact hno h

/-- Characterization of the DuckDuckGo provider on a successful
library call. -/
theorem web_search_duckduckgo_ok (hits : List Hit) :
    web_search_duckduckgo (.ok hits)
      = (if (hits.map fmtDdg).isEmpty then some "No search results found."
         else some (pyJoin "\n\n" (hits.map fmtDdg)), [Provider.ddg]) := rfl

/-- Characterization of the Brave provider on a 200 response when its
key is present. -/
theorem web_search_brave_200 (key : String) (hits : List Hit)
    (hk : pyStrip key ≠ "") :
    web_search_brave key (.resp 200 hits)
      = (if ((hits.take 3).map fmtBrave).isEmpty then
           some "No search results found."
         else some (pyJoin "\n\n" ((hits.take 3).map fmtBrave)),
         [Provider.brave]) := by
  have hb : (pyStrip key == "") = false := beq_eq_false_iff_ne.mpr hk
  simp [web_search_brave, hb]

/-- Characterization of the SerpAPI provider on a 200 response when its
key is present. -/
theorem web_search_serpapi_200 (key : String) (hits : List Hit)
    (hk : pyStrip key ≠ "") :
    web_search_serpapi key (.resp 200 hits)
      = (if ((hits.take 3).map fmtSerp).isEmpty then
           some "No search results found."
         else some (pyJoin "\n\n" ((hits.take 3).map fmtSerp)),
         [Provider.serpapi]) := by
  have hb : (pyStrip key == "") = false := beq_eq_false_iff_ne.mpr hk
  simp [web_search_serpapi, hb]

/-- C9: on equal result triples the three providers produce
character-identical output strings (at most three entries, rendered
identically), so the caller cannot tell which provider answered; the
two keyed providers additionally cap their output at the first three
results. -/
theorem c9_provider_format (hits : List Hit) (key1 key2 : String)
    (hlen : hits.length ≤ 3) (hk1 : pyStrip key1 ≠ "") (hk2 : pyStrip key2 ≠ "") :
    (web_search_duckduckgo (.ok hits)).fst
      = (web_search_brave key1 (.resp 200 hits)).fst ∧
    (web_search_brave key1 (.resp 200 hits)).fst
      = (web_search_serpapi key2 (.resp 200 hits)).fst ∧
    (∀ more : List Hit,
      (web_search_brave key1 (.resp 200 (hits ++ more))).fst
        = (web_search_brave key1 (.resp 200 ((hits ++ more).take 3))).fst) ∧
    (∀ more : List Hit,
      (web_search_serpapi key2 (.resp 200 (hits ++ more))).fst
        = (web_search_serpapi key2 (.resp 200 ((hits ++ more).take 3))).fst) := by
  have ht : hits.take 3 = hits := List.take_of_length_le hlen
  have e1 : fmtBrave = fmtDdg := rfl
  have e2 : fmtSerp = fmtDdg := rfl
  refine ⟨?_, ?_, ?_, ?_⟩
  · rw [web_search_duckduckgo_ok, web_search_brave_200 key1 hits hk1, ht, e1]
  · rw [web_search_brave_200 key1 hits hk1,
      web_search_serpapi_200 key2 hits hk2, e1, e2]
  · intro more
    rw [web_search_brave_200 key1 (hits ++ more) hk1,
      web_search_brave_200 key1 ((hits ++ more).take 3) hk1,
      List.take_take, Nat.min_self]
  · intro more
    rw [web_search_serpapi_200 key2 (hits ++ more) hk2,
      web_search_serpapi_200 key2 ((hits ++ more).take 3) hk2,
      List.take_take, Nat.min_self]

/-- Witness for C9 at a concrete one-hit result set: all three
providers return the same string. -/
theorem c9_provider_format_witness :
    (web_search_duckduckgo (DdgOutcome.ok [⟨some "T", some "S", some "u"⟩])).fst
      = (web_search_brave "k1"
          (HttpOutcome.resp 200 [⟨some "T", some "S", some "u"⟩])).fst ∧
    (web_search_brave "k1"
        (HttpOutcome.resp 200 [⟨some "T", some "S", some "u"⟩])).fst
      = (web_search_serpapi "k2"
          (HttpOutcome.resp 200 [⟨some "T", some "S", some "u"⟩])).fst :=
  ⟨(c9_provider_format [⟨some "T", some "S", some "u"⟩] "k1" "k2"
      (by decide) (by decide) (by decide)).1,
   (c9_provider_format [⟨some "T", some "S", some "u"⟩] "k1" "k2"
      (by decide) (by decide) (by decide)).2.1⟩

/-- Whether a context line carries a given label, tested as the label
being an initial segment of the line. -/
def lineHasLabel (l lab : String) : Bool :=
  lab.data.isPrefixOf l.data

/-- Two lists sharing a common front but differing at the next position
are not in the prefix relation. -/
theorem isPrefixOf_mismatch (u s t : List Char) (c d : Char) (h : c ≠ d) :
    ((u ++ c :: s).isPrefixOf (u ++ d :: t)) = false := by
  induction u with
  | nil => simp [List.isPrefixOf, h]
  | cons e u ih => simp [List.isPrefixOf, ih]

/-- A label does not head a line built from an incompatible literal
followed by arbitrary text. -/
theorem lineHasLabel_mismatch (lab pre x : String) (u s t : List Char)
    (c d : Char) (hlab : lab.data = u ++ c :: s) (hpre : pre.data = u ++ d :: t)
    (hcd : c ≠ d) : lineHasLabel (pre ++ x) lab = false := by
  unfold lineHasLabel
  rw [String.data_append, hlab, hpre, List.append_assoc]
  exact isPrefixOf_mismatch u s (t ++ x.data) c d hcd
/-- Decomposition of a successful record block into its company line
and the optional slot parts. -/
theorem recordBlock_shape (r : Record) (b : List String)
    (h : recordBlock r = some b) :
    ∃ np sp,
      slotLines "Notes: " (resolveSlot r.fields notesAliases) = some np ∧
      slotLines "Deck Summary: " (resolveSlot r.fields summaryAliases) = some sp ∧
      b = ("\nCompany: "
            ++ pyStr ((resolveSlot r.fields companyAliases).getD
                (Value.str "Unknown")))
          :: (optLine "Status: " (resolveSlot r.fields statusAliases)
              ++ (optLine "Date: " (resolveSlot r.fields dateAliases)
                  ++ (np ++ sp))) := by
  cases hn : slotLines "Notes: " (resolveSlot r.fields notesAliases) with
  | none =>
    simp [recordBlock, hn] at h
  | some np =>
    cases hsm : slotLines "Deck Summary: " (resolveSlot r.fields summaryAliases) with
    | none => simp [recordBlock, hn, hsm] at h
    | some sp =>
      refine ⟨np, sp, rfl, rfl, ?_⟩
      simp [recordBlock, hn, hsm] at h
      exact h.symm

/-- Every line of a record block is the company line, a labeled status
or date line for a resolved slot, or a labeled notes or deck-summary
line for a resolved truncated slot. -/
theorem mem_recordBlock (r : Record) (b : List String) (l : String)
    (h : recordBlock r = some b) (hl : l ∈ b) :
    l = "\nCompany: "
        ++ pyStr ((resolveSlot r.fields companyAliases).getD (Value.str "Unknown"))
    ∨ (∃ v, resolveSlot r.fields statusAliases = some v ∧
        l = "Status: " ++ pyStr v)
    ∨ (∃ v, resolveSlot r.fields dateAliases = some v ∧
        l = "Date: " ++ pyStr v)
    ∨ (∃ v t, resolveSlot r.fields notesAliases = some v ∧ slotText v = some t ∧
        l = "Notes: " ++ t)
    ∨ (∃ v t, resolveSlot r.fields summaryAliases = some v ∧ slotText v = some t ∧
        l = "Deck Summary: " ++ t) := by
  obtain ⟨np, sp, hn, hs, rfl⟩ := recordBlock_shape r b h
  rcases List.mem_cons.mp hl with hc | hrest
  · exact Or.inl hc
  rcases List.mem_append.mp hrest with hst | hrest2
  · cases hv : resolveSlot r.fields statusAliases with
    | none => rw [hv] at hst; simp [optLine] at hst
    | some v =>
      rw [hv] at hst
      simp [optLine] at hst
      exact Or.inr (Or.inl ⟨v, rfl, hst⟩)
  rcases List.mem_append.mp hrest2 with hdt | hrest3
  · cases hv : resolveSlot r.fields dateAliases with
    | none => rw [hv] at hdt; simp [optLine] at hdt
    | some v =>
      rw [hv] at hdt
      simp [optLine] at hdt
      exact Or.inr (Or.inr (Or.inl ⟨v, rfl, hdt⟩))
  rcases List.mem_append.mp hrest3 with hnp | hsp
  · cases hv : resolveSlot r.fields notesAliases with
    | none =>
      rw [hv] at hn
      have h0 : np = [] := (Option.some.inj hn).symm
      rw [h0] at hnp
      exact absurd hnp (List.not_mem_nil l)
    | some v =>
      rw [hv] at hn
      cases hts : slotText v with
      | none => simp [slotLines, hts] at hn
      | some t =>
        have h1 : np = ["Notes: " ++ t] := by
          simpa [slotLines, hts] using hn.symm
        rw [h1] at hnp
        simp at hnp
        exact Or.inr (Or.inr (Or.inr (Or.inl ⟨v, t, rfl, hts, hnp⟩)))
  · cases hv : resolveSlot r.fields summaryAliases with
    | none =>
      rw [hv] at hs
      have h0 : sp = [] := (Option.some.inj hs).symm
      rw [h0] at hsp
      exact absurd hsp (List.not_mem_nil l)
    | some v =>
      rw [hv] at hs
      cases hts : slotText v with
      | none => simp [slotLines, hts] at hs
      | some t =>
        have h1 : sp = ["Deck Summary: " ++ t] := by
          simpa [slotLines, hts] using hs.symm
        rw [h1] at hsp
        simp at hsp
        exact Or.inr (Or.inr (Or.inr (Or.inr ⟨v, t, rfl, hts, hsp⟩)))

/-- When the status slot is unresolved, no line of the block carries
the Status label. -/
theorem no_status_label (r : Record) (b : List String) (l : String)
    (h : recordBlock r = some b)
    (hnone : resolveSlot r.fields statusAliases = none) (hl : l ∈ b) :
    lineHasLabel l "Status:" = false := by
  rcases mem_recordBlock r b l h hl with hc | ⟨v, hv, hc⟩ | ⟨v, hv, hc⟩
    | ⟨v, t, hv, ht, hc⟩ | ⟨v, t, hv, ht, hc⟩
  · rw [hc]
    exact lineHasLabel_mismatch "Status:" "\nCompany: " _ [] "tatus:".data
      "Company: ".data 'S' '\n' rfl rfl (by decide)
  · rw [hv] at hnone; cases hnone
  · rw [hc]
    exact lineHasLabel_mismatch "Status:" "Date: " _ [] "tatus:".data
      "ate: ".data 'S' 'D' rfl rfl (by decide)
  · rw [hc]
    exact lineHasLabel_mismatch "Status:" "Notes: " _ [] "tatus:".data
      "otes: ".data 'S' 'N' rfl rfl (by decide)
  · rw [hc]
    exact lineHasLabel_mismatch "Status:" "Deck Summary: " _ [] "tatus:".data
      "eck Summary: ".data 'S' 'D' rfl rfl (by decide)

/-- When the date slot is unresolved, no line of the block carries the
Date label. -/
theorem no_date_label (r : Record) (b : List String) (l : String)
    (h : recordBlock r = some b)
    (hnone : resolveSlot r.fields dateAliases = none) (hl : l ∈ b) :
    lineHasLabel l "Date:" = false := by
  rcases mem_recordBlock r b l h hl with hc | ⟨v, hv, hc⟩ | ⟨v, hv, hc⟩
    | ⟨v, t, hv, ht, hc⟩ | ⟨v, t, hv, ht, hc⟩
  · rw [hc]
    exact lineHasLabel_mismatch "Date:" "\nCompany: " _ [] "ate:".data
      "Company: ".data 'D' '\n' rfl rfl (by decide)
  · rw [hc]
    exact lineHasLabel_mismatch "Date:" "Status: " _ [] "ate:".data
      "tatus: ".data 'D' 'S' rfl rfl (by decide)
  · rw [hv] at hnone; cases hnone
  · rw [hc]
    exact lineHasLabel_mismatch "Date:" "Notes: " _ [] "ate:".data
      "otes: ".data 'D' 'N' rfl rfl (by decide)
  · rw [hc]
    exact lineHasLabel_mismatch "Date:" "Deck Summary: " _ ['D'] "te:".data
      "ck Summary: ".data 'a' 'e' rfl rfl (by decide)

/-- When the notes slot is unresolved, no line of the block carries the
Notes label. -/
theorem no_notes_label (r : Record) (b : List String) (l : String)
    (h : recordBlock r = some b)
    (hnone : resolveSlot r.fields notesAliases = none) (hl : l ∈ b) :
    lineHasLabel l "Notes:" = false := by
  rcases mem_recordBlock r b l h hl with hc | ⟨v, hv, hc⟩ | ⟨v, hv, hc⟩
    | ⟨v, t, hv, ht, hc⟩ | ⟨v, t, hv, ht, hc⟩
  · rw [hc]
    exact lineHasLabel_mismatch "Notes:" "\nCompany: " _ [] "otes:".data
      "Company: ".data 'N' '\n' rfl rfl (by decide)
  · rw [hc]
    exact lineHasLabel_mismatch "Notes:" "Status: " _ [] "otes:".data
      "tatus: ".data 'N' 'S' rfl rfl (by decide)
  · rw [hc]
    exact lineHasLabel_mismatch "Notes:" "Date: " _ [] "otes:".data
      "ate: ".data 'N' 'D' rfl rfl (by decide)
  · rw [hv] at hnone; cases hnone
  · rw [hc]
    exact lineHasLabel_mismatch "Notes:" "Deck Summary: " _ [] "otes:".data
      "eck Summary: ".data 'N' 'D' rfl rfl (by decide)

/-- When the deck-summary slot is unresolved, no line of the block
carries the Deck Summary label. -/
theorem no_summary_label (r : Record) (b : List String) (l : String)
    (h : recordBlock r = some b)
    (hnone : resolveSlot r.fields summaryAliases = none) (hl : l ∈ b) :
    lineHasLabel l "Deck Summary:" = false := by
  rcases mem_recordBlock r b l h hl with hc | ⟨v, hv, hc⟩ | ⟨v, hv, hc⟩
    | ⟨v, t, hv, ht, hc⟩ | ⟨v, t, hv, ht, hc⟩
  · rw [hc]
    exact lineHasLabel_mismatch "Deck Summary:" "\nCompany: " _ []
      "eck Summary:".data "Company: ".data 'D' '\n' rfl rfl (by decide)
  · rw [hc]
    exact lineHasLabel_mismatch "Deck Summary:" "Status: " _ []
      "eck Summary:".data "tatus: ".data 'D' 'S' rfl rfl (by decide)
  · rw [hc]
    exact lineHasLabel_mismatch "Deck Summary:" "Date: " _ ['D']
      "ck Summary:".data "te: ".data 'e' 'a' rfl rfl (by decide)
  · rw [hc]
    exact lineHasLabel_mismatch "Deck Summary:" "Notes: " _ []
      "eck Summary:".data "otes: ".data 'D' 'N' rfl rfl (by decide)
  · rw [hv] at hnone; cases hnone

/-- When no company alias resolves, the block opens with the fallback
company line. -/
theorem recordBlock_head (r : Record) (b : List String)
    (h : recordBlock r = some b)
    (hc : resolveSlot r.fields companyAliases = none) :
    b.head? = some "\nCompany: Unknown" := by
  obtain ⟨np, sp, hn, hs, rfl⟩ := recordBlock_shape r b h
  rw [hc]
  rfl

/-- C5: a record with no resolvable company name still opens its block
with exactly the fallback line Company: Unknown (preceded by the
blank-line separator), while each of the status, date, notes and
deck-summary slots, when unresolved, contributes no labeled line at
all. -/
theorem c5_slot_fallbacks (r : Record) (b : List String)
    (h : recordBlock r = some b) :
    (resolveSlot r.fields companyAliases = none →
      b.head? = some "\nCompany: Unknown") ∧
    (resolveSlot r.fields statusAliases = none →
      ∀ l ∈ b, lineHasLabel l "Status:" = false) ∧
    (resolveSlot r.fields dateAliases = none →
      ∀ l ∈ b, lineHasLabel l "Date:" = false) ∧
    (resolveSlot r.fields notesAliases = none →
      ∀ l ∈ b, lineHasLabel l "Notes:" = false) ∧
    (resolveSlot r.fields summaryAliases = none →
      ∀ l ∈ b, lineHasLabel l "Deck Summary:" = false) :=
  ⟨fun hc => recordBlock_head r b h hc,
   fun hn l hl => no_status_label r b l h hn hl,
   fun hn l hl => no_date_label r b l h hn hl,
   fun hn l hl => no_notes_label r b l h hn hl,
   fun hn l hl => no_summary_label r b l h hn hl⟩

/-- Witness for C5 at the empty record: its block is exactly the
fallback company line and carries no status label. -/
theorem c5_slot_fallbacks_witness :
    (["\nCompany: Unknown"] : List String).head? = some "\nCompany: Unknown" ∧
    ∀ l ∈ (["\nCompany: Unknown"] : List String),
      lineHasLabel l "Status:" = false :=
  ⟨(c5_slot_fallbacks ⟨[]⟩ ["\nCompany: Unknown"] rfl).1 rfl,
   (c5_slot_fallbacks ⟨[]⟩ ["\nCompany: Unknown"] rfl).2.1 rfl⟩

/-- A slot whose every alias is absent or maps to a falsy value
resolves to nothing. -/
theorem resolveSlot_none_of_falsy (fields : Fields) (aliases : List String)
    (h : ∀ k ∈ aliases, ∀ v, fields.lookup k = some v → v.truthy = false) :
    resolveSlot fields aliases = none := by
  induction aliases with
  | nil => rfl
  | cons k ks ih =>
    have hrest : resolveSlot fields ks = none :=
      ih (fun k2 hk2 => h k2 (List.mem_cons_of_mem k hk2))
    cases hk : fields.lookup k with
    | none => simp [resolveSlot, hk, hrest]
    | some v =>
      have hfal := h k (List.mem_cons_self k ks) v hk
      simp [resolveSlot, hk, hfal, hrest]

/-- C10: a present-but-falsy field value behaves exactly like an absent
field during slot resolution: probing continues with the next alias, a
company slot whose aliases are all absent or falsy falls back to the
Unknown line, and a status, date, notes or deck-summary slot whose
aliases are all absent or falsy contributes no labeled line. -/
theorem c10_falsy_as_absent (r : Record) (b : List String)
    (h : recordBlock r = some b) :
    (∀ (fields : Fields) (k : String) (ks : List String) (v : Value),
      fields.lookup k = some v → v.truthy = false →
      resolveSlot fields (k :: ks) = resolveSlot fields ks) ∧
    ((∀ a ∈ companyAliases, ∀ w, r.fields.lookup a = some w → w.truthy = false) →
      b.head? = some "\nCompany: Unknown") ∧
    ((∀ a ∈ statusAliases, ∀ w, r.fields.lookup a = some w → w.truthy = false) →
      ∀ l ∈ b, lineHasLabel l "Status:" = false) ∧
    ((∀ a ∈ dateAliases, ∀ w, r.fields.lookup a = some w → w.truthy = false) →
      ∀ l ∈ b, lineHasLabel l "Date:" = false) ∧
    ((∀ a ∈ notesAliases, ∀ w, r.fields.lookup a = some w → w.truthy = false) →
      ∀ l ∈ b, lineHasLabel l "Notes:" = false) ∧
    ((∀ a ∈ summaryAliases, ∀ w, r.fields.lookup a = some w → w.truthy = false) →
      ∀ l ∈ b, lineHasLabel l "Deck Summary:" = false) :=
  ⟨fun fields k ks v hk hfal => by simp [resolveSlot, hk, hfal],
   fun hall => recordBlock_head r b h
     (resolveSlot_none_of_falsy r.fields companyAliases hall),
   fun hall l hl => no_status_label r b l h
     (resolveSlot_none_of_falsy r.fields statusAliases hall) hl,
   fun hall l hl => no_date_label r b l h
     (resolveSlot_none_of_falsy r.fields dateAliases hall) hl,
   fun hall l hl => no_notes_label r b l h
     (resolveSlot_none_of_falsy r.fields notesAliases hall) hl,
   fun hall l hl => no_summary_label r b l h
     (resolveSlot_none_of_falsy r.fields summaryAliases hall) hl⟩

/-- The record whose fields are all present but falsy (empty string
company, zero status, empty list date, empty string notes, zero
summary). -/
def falsyRecord : Record :=
  ⟨[("Company", Value.str ""), ("Status", Value.num 0),
    ("date", Value.list []), ("Notes", Value.str ""),
    ("Summary", Value.num 0)]⟩

/-- Witness for C10 at a record whose fields are all present but
falsy: the block is exactly the fallback company line. -/
theorem c10_falsy_as_absent_witness :
    (["\nCompany: Unknown"] : List String).head? = some "\nCompany: Unknown" ∧
    ∀ l ∈ (["\nCompany: Unknown"] : List String),
      lineHasLabel l "Status:" = false := by
  have hall1 : ∀ a ∈ companyAliases, ∀ w,
      falsyRecord.fields.lookup a = some w → w.truthy = false := by
    intro a ha w hw
    fin_cases ha
    all_goals
      simp [falsyRecord, List.lookup] at hw
      try subst hw
      try rfl
  have hall2 : ∀ a ∈ statusAliases, ∀ w,
      falsyRecord.fields.lookup a = some w → w.truthy = false := by
    intro a ha w hw
    fin_cases ha
    all_goals
      simp [falsyRecord, List.lookup] at hw
      try subst hw
      try rfl
  have h := c10_falsy_as_absent falsyRecord ["\nCompany: Unknown"] rfl
  exact ⟨h.2.1 hall1, h.2.2.1 hall2⟩

/-- The record loop emits the per-record blocks joined in input order:
when every record block succeeds, the emitted lines are exactly their
concatenation. -/
theorem contextLines_eq_join (records : List Record)
    (blocks : List (List String))
    (h : records.mapM recordBlock = some blocks) :
    contextLines records = some blocks.flatten := by
  induction records generalizing blocks with
  | nil =>
    cases Option.some.inj h
    rfl
  | cons r rs ih =>
    rw [List.mapM_cons] at h
    cases hr : recordBlock r with
    | none => rw [hr] at h; simp at h
    | some b =>
      rw [hr] at h
      cases hrs : rs.mapM recordBlock with
      | none => rw [hrs] at h; simp at h
      | some bs =>
        rw [hrs] at h
        simp at h
        subst h
        simp [contextLines, hr, ih bs hrs]

/-- C4 (amended): the context is the header followed by the per-record
blocks in exactly the input record order, and the Notes and Deck
Summary slot values are truncated with a 500-item slice before
rendering: for a string value the emitted slot text has at most 500
characters, while a list value only has its element count bounded and
its rendered text may be longer. -/
theorem c4_amended (records : List Record) (blocks : List (List String))
    (s : String) (l : List Value)
    (h : records.mapM recordBlock = some blocks) :
    create_context records
      = some (pyJoin "\n" ("=== VC DATABASE ===\n" :: blocks.flatten)) ∧
    slotText (Value.str s) = some (String.mk (s.data.take 500)) ∧
    (String.mk (s.data.take 500)).length ≤ 500 ∧
    slotText (Value.list l) = some (pyStr (Value.list (l.take 500))) := by
  refine ⟨?_, rfl, ?_, rfl⟩
  · rw [create_context, contextLines_eq_join records blocks h]
    rfl
  · show (s.data.take 500).length ≤ 500
    rw [List.length_take]
    exact Nat.min_le_left _ _

/-- Witness for C4 at a concrete one-record table and a concrete short
string. -/
theorem c4_amended_witness :
    create_context [⟨[("Company", Value.str "Acme")]⟩]
      = some "=== VC DATABASE ===\n\n\nCompany: Acme" ∧
    slotText (Value.str "hello") = some "hello" := by
  have h := c4_amended [⟨[("Company", Value.str "Acme")]⟩]
    [["\nCompany: Acme"]] "hello" [] rfl
  exact ⟨h.1.trans rfl, h.2.1.trans rfl⟩

/-- A notes value that is a one-element list holding a 501-character
string: truthy, so the slot resolves, and the 500-item slice keeps the
whole element. -/
def cexNotes : Value :=
  Value.list [Value.str (String.mk (List.replicate 501 'a'))]

/-- A record carrying the long list-valued notes field. -/
def cexRecord : Record := ⟨[("Notes", cexNotes)]⟩

set_option maxRecDepth 10000 in
/-- Counterexample to C4 as stated: the record block emits a Notes slot
text of 505 characters, exceeding the claimed 500-character bound,
because the slice of a list value bounds elements rather than
characters. -/
theorem c4_counterexample :
    recordBlock cexRecord
      = some ["\nCompany: Unknown", "Notes: " ++ pyStr cexNotes] ∧
    slotText cexNotes = some (pyStr cexNotes) ∧
    500 < (pyStr cexNotes).length := by
  refine ⟨rfl, rfl, ?_⟩
  decide
